import Mathlib

/-!
Verification of the vector-algebra module of rust_pbrt
(src/core/geometry.rs): generic Vector2 and Vector3 types with
componentwise arithmetic, dot products, NaN-validating constructors and
bounds-checked indexing.

Modelling conventions
- The Rust code is generic over an element type T with per-operation
  trait bounds; the embedding mirrors this with Lean typeclass binders
  (Mul T, Add T, Neg T) and a small `Flt` class standing for the
  num_traits::Float bound (NaN test and reciprocal, the two Float
  methods the module actually uses).
- The f32 instantiation is modelled by the inductive type `F32`:
  the IEEE special values NaN, plus-infinity and minus-infinity are
  represented exactly, and finite values are carried as exact rationals.
  This is faithful for every property checked here: none of them
  depends on rounding, overflow of finite intermediates, or the sign of
  zero, only on the special-value algebra (NaN propagation, infinity
  arithmetic, reciprocal of zero) and on exact componentwise identities.
- Rust equality on vectors is the derived PartialEq, which compares
  componentwise with the element equality; for f32 that is IEEE
  equality, under which NaN compares unequal to everything, itself
  included. `F32.beq` and `Vector2.beq` / `Vector3.beq` model this.
  Lean structural equality `=` on `Vector2 F32` models bit-for-bit
  identity of the representation.
- A Rust panic is modelled as `none`: the validating constructor `new`
  and the `index` accessor return an `Option`. Every other operation of
  the module has no panic path in the source and is embedded as a plain
  total function.
- The u32 index argument of the Index impls is modelled as `Nat`; the
  match in the source sends every index other than the named component
  positions to the panic arm, so the Nat embedding agrees with the u32
  behaviour on all of u32 range.
- Rust compound assignment `x += y` on the primitive numeric element
  types is the same operation as `x + y` followed by a store; add_assign
  is embedded as a function returning the mutated value.
-/

namespace RustPbrt

/-- Model of the f32 element type: IEEE special values exactly, finite
values as exact rationals. -/
inductive F32 where
  | nan : F32
  | inf : F32
  | neginf : F32
  | fin : ℚ → F32
deriving DecidableEq

namespace F32

/-- IEEE f32 addition on the model: NaN propagates, opposite infinities
give NaN, an infinity absorbs finite values, finite addition is exact. -/
def add : F32 → F32 → F32
  | nan, _ => nan
  | _, nan => nan
  | inf, neginf => nan
  | neginf, inf => nan
  | inf, _ => inf
  | _, inf => inf
  | neginf, _ => neginf
  | _, neginf => neginf
  | fin a, fin b => fin (a + b)

/-- IEEE f32 multiplication on the model: NaN propagates, infinity times
zero is NaN, infinity times a nonzero value is a signed infinity, finite
multiplication is exact. -/
def mul : F32 → F32 → F32
  | nan, _ => nan
  | _, nan => nan
  | inf, inf => inf
  | inf, neginf => neginf
  | neginf, inf => neginf
  | neginf, neginf => inf
  | inf, fin q => if 0 < q then inf else if q < 0 then neginf else nan
  | fin q, inf => if 0 < q then inf else if q < 0 then neginf else nan
  | neginf, fin q => if 0 < q then neginf else if q < 0 then inf else nan
  | fin q, neginf => if 0 < q then neginf else if q < 0 then inf else nan
  | fin a, fin b => fin (a * b)

/-- IEEE f32 negation on the model. -/
def neg : F32 → F32
  | nan => nan
  | inf => neginf
  | neginf => inf
  | fin q => fin (-q)

/-- IEEE f32 subtraction on the model, as addition of the negation
(agrees with IEEE subtraction in every case). -/
def sub (a b : F32) : F32 := add a (neg b)

/-- IEEE f32 division on the model: NaN propagates, infinity over
infinity and zero over zero are NaN, a nonzero finite value over zero is
a signed infinity, finite division is exact. -/
def fdiv : F32 → F32 → F32
  | nan, _ => nan
  | _, nan => nan
  | inf, inf => nan
  | inf, neginf => nan
  | neginf, inf => nan
  | neginf, neginf => nan
  | inf, fin q => if q < 0 then neginf else inf
  | neginf, fin q => if q < 0 then inf else neginf
  | fin _, inf => fin 0
  | fin _, neginf => fin 0
  | fin a, fin b =>
      if b = 0 then
        if a = 0 then nan else if 0 < a then inf else neginf
      else fin (a / b)

/-- num_traits / f32 recip: the reciprocal is computed as one divided by
the argument. -/
def recip (x : F32) : F32 := fdiv (fin 1) x

/-- f32 is_nan. -/
def is_nan : F32 → Bool
  | nan => true
  | _ => false

/-- IEEE f32 equality (Rust PartialEq on f32): NaN is unequal to
everything, itself included; finite comparison is exact. -/
def beq : F32 → F32 → Bool
  | nan, _ => false
  | _, nan => false
  | inf, inf => true
  | inf, _ => false
  | neginf, neginf => true
  | neginf, _ => false
  | fin a, fin b => decide (a = b)
  | fin _, _ => false

/-- True on the two infinities and on NaN: the values division by zero
is allowed to produce. -/
def isInfOrNan : F32 → Bool
  | nan => true
  | inf => true
  | neginf => true
  | fin _ => false

/-- True exactly on the finite values. -/
def isFinite : F32 → Bool
  | fin _ => true
  | _ => false

instance : Add F32 := ⟨F32.add⟩
instance : Mul F32 := ⟨F32.mul⟩
instance : Neg F32 := ⟨F32.neg⟩
instance : BEq F32 := ⟨F32.beq⟩

end F32

/-- The num_traits::Float trait bound, restricted to the two Float
methods the module uses: the NaN test and the reciprocal. -/
class Flt (T : Type) where
  is_nan : T → Bool
  recip : T → T

instance : Flt F32 := ⟨F32.is_nan, F32.recip⟩

/-- Vector2 from src/core/geometry.rs. -/
structure Vector2 (T : Type) where
  x : T
  y : T
deriving DecidableEq

/-- Vector3 from src/core/geometry.rs. -/
structure Vector3 (T : Type) where
  x : T
  y : T
  z : T
deriving DecidableEq

namespace Vector2

/-- Vector2::new: asserts that no component is NaN (panic modelled as
none), then builds the aggregate. -/
def new {T : Type} [Flt T] (x y : T) : Option (Vector2 T) :=
  if (!(Flt.is_nan x) && !(Flt.is_nan y)) = true then some ⟨x, y⟩ else none

/-- Vector2::length_squared. -/
def length_squared {T : Type} [Mul T] [Add T] (v : Vector2 T) : T :=
  v.x * v.x + v.y * v.y

/-- Vector2::has_nans. -/
def has_nans {T : Type} [Flt T] (v : Vector2 T) : Bool :=
  Flt.is_nan v.x || Flt.is_nan v.y

/-- Vector2::dot (the method). -/
def dot {T : Type} [Mul T] [Add T] (a rhs : Vector2 T) : T :=
  a.x * rhs.x + a.y * rhs.y

/-- impl Add for Vector2: componentwise. -/
def add {T : Type} [Add T] (a rhs : Vector2 T) : Vector2 T :=
  ⟨a.x + rhs.x, a.y + rhs.y⟩

/-- impl AddAssign for Vector2: the mutated value of self after the two
componentwise compound assignments. -/
def add_assign {T : Type} [Add T] (a rhs : Vector2 T) : Vector2 T :=
  ⟨a.x + rhs.x, a.y + rhs.y⟩

/-- impl Sub for Vector2: componentwise. -/
def sub {T : Type} [Sub T] (a rhs : Vector2 T) : Vector2 T :=
  ⟨a.x - rhs.x, a.y - rhs.y⟩

/-- impl Mul of Vector2 by a scalar (T: Float in the source). -/
def mul {T : Type} [Mul T] (v : Vector2 T) (rhs : T) : Vector2 T :=
  ⟨v.x * rhs, v.y * rhs⟩

/-- impl Div of Vector2 by a scalar: multiplication by the reciprocal. -/
def div {T : Type} [Mul T] [Flt T] (v : Vector2 T) (rhs : T) : Vector2 T :=
  v.mul (Flt.recip rhs)

/-- impl Neg for Vector2: componentwise. -/
def neg {T : Type} [Neg T] (v : Vector2 T) : Vector2 T :=
  ⟨-v.x, -v.y⟩

/-- impl Index of u32 for Vector2: 0 is x, 1 is y, everything else
panics (modelled as none). -/
def index {T : Type} (v : Vector2 T) (i : Nat) : Option T :=
  if i = 0 then some v.x else if i = 1 then some v.y else none

/-- Derived PartialEq on Vector2: componentwise element equality. -/
def beq {T : Type} [BEq T] (a b : Vector2 T) : Bool :=
  (a.x == b.x) && (a.y == b.y)

/-- All components finite in the f32 model. -/
def allFinite (v : Vector2 F32) : Bool :=
  v.x.isFinite && v.y.isFinite

end Vector2

/-- vec2_dot, the free function: same formula as the method. -/
def vec2_dot {T : Type} [Mul T] [Add T] (a b : Vector2 T) : T :=
  a.x * b.x + a.y * b.y

namespace Vector3

/-- Vector3::new: asserts that no component is NaN (panic modelled as
none), then builds the aggregate. -/
def new {T : Type} [Flt T] (x y z : T) : Option (Vector3 T) :=
  if (!(Flt.is_nan x) && !(Flt.is_nan y) && !(Flt.is_nan z)) = true then
    some ⟨x, y, z⟩
  else none

/-- Vector3::length_squared. -/
def length_squared {T : Type} [Mul T] [Add T] (v : Vector3 T) : T :=
  v.x * v.x + v.y * v.y + v.z * v.z

/-- Vector3::has_nans. -/
def has_nans {T : Type} [Flt T] (v : Vector3 T) : Bool :=
  Flt.is_nan v.x || Flt.is_nan v.y || Flt.is_nan v.z

/-- Vector3::dot (the method). -/
def dot {T : Type} [Mul T] [Add T] (a rhs : Vector3 T) : T :=
  a.x * rhs.x + a.y * rhs.y + a.z * rhs.z

/-- impl Add for Vector3: componentwise. -/
def add {T : Type} [Add T] (a rhs : Vector3 T) : Vector3 T :=
  ⟨a.x + rhs.x, a.y + rhs.y, a.z + rhs.z⟩

/-- impl AddAssign for Vector3: the mutated value of self after the
three componentwise compound assignments. -/
def add_assign {T : Type} [Add T] (a rhs : Vector3 T) : Vector3 T :=
  ⟨a.x + rhs.x, a.y + rhs.y, a.z + rhs.z⟩

/-- impl Sub for Vector3: componentwise. -/
def sub {T : Type} [Sub T] (a rhs : Vector3 T) : Vector3 T :=
  ⟨a.x - rhs.x, a.y - rhs.y, a.z - rhs.z⟩

/-- impl Mul of Vector3 by a scalar (T: Float in the source). -/
def mul {T : Type} [Mul T] (v : Vector3 T) (rhs : T) : Vector3 T :=
  ⟨v.x * rhs, v.y * rhs, v.z * rhs⟩

/-- impl Div of Vector3 by a scalar: multiplication by the reciprocal. -/
def div {T : Type} [Mul T] [Flt T] (v : Vector3 T) (rhs : T) : Vector3 T :=
  v.mul (Flt.recip rhs)

/-- impl Neg for Vector3: componentwise. -/
def neg {T : Type} [Neg T] (v : Vector3 T) : Vector3 T :=
  ⟨-v.x, -v.y, -v.z⟩

/-- impl Index of u32 for Vector3: 0 is x, 1 is y, 2 is z, everything
else panics (modelled as none). -/
def index {T : Type} (v : Vector3 T) (i : Nat) : Option T :=
  if i = 0 then some v.x
  else if i = 1 then some v.y
  else if i = 2 then some v.z
  else none

/-- Derived PartialEq on Vector3: componentwise element equality. -/
def beq {T : Type} [BEq T] (a b : Vector3 T) : Bool :=
  (a.x == b.x) && (a.y == b.y) && (a.z == b.z)

/-- All components finite in the f32 model. -/
def allFinite (v : Vector3 F32) : Bool :=
  v.x.isFinite && v.y.isFinite && v.z.isFinite

end Vector3

/-- vec3_dot, the free function, exactly as written in the source: note
that the last two factors are ADDED, not multiplied, so the formula is
a.x * b.x + a.y * b.y + a.z + b.z. -/
def vec3_dot {T : Type} [Mul T] [Add T] (a b : Vector3 T) : T :=
  a.x * b.x + a.y * b.y + a.z + b.z

end RustPbrt

namespace RustPbrt

/-- The Flt instance on F32 projects to F32.is_nan. -/
theorem F32.flt_is_nan (x : F32) : Flt.is_nan x = F32.is_nan x := rfl

/-- The BEq instance on F32 projects to F32.beq. -/
theorem F32.beq_eq (x y : F32) : (x == y) = F32.beq x y := rfl

/-- A finite model value carries a rational. -/
theorem F32.exists_fin_of_isFinite (x : F32) (h : x.isFinite = true) :
    ∃ q : ℚ, x = F32.fin q := by
  rcases x with _ | _ | _ | q
  · exact absurd h (by decide)
  · exact absurd h (by decide)
  · exact absurd h (by decide)
  · exact ⟨q, rfl⟩

/-- Multiplying any model value by plus-infinity yields an infinity or
NaN. -/
theorem F32.mul_inf_isInfOrNan (t : F32) : (t.mul F32.inf).isInfOrNan = true := by
  rcases t with _ | _ | _ | q
  · rfl
  · rfl
  · rfl
  · simp only [F32.mul]
    split_ifs <;> rfl

/-- The Add instance on F32 projects to F32.add. -/
theorem F32.add_def (x y : F32) : x + y = F32.add x y := rfl

/-- The Neg instance on F32 projects to F32.neg. -/
theorem F32.neg_def (x : F32) : -x = F32.neg x := rfl

/-- Negation of the model is an involution on the representation. -/
theorem F32.neg_neg_eq (x : F32) : -(-x) = x := by
  rcases x with _ | _ | _ | q <;> simp [F32.neg_def, F32.neg, neg_neg]

/-- IEEE equality is reflexive away from NaN. -/
theorem F32.beq_self_of_not_nan (x : F32) (h : x.is_nan = false) :
    F32.beq x x = true := by
  rcases x with _ | _ | _ | q
  · exact absurd h (by decide)
  · rfl
  · rfl
  · simp [F32.beq]

end RustPbrt

namespace RustPbrt

/-- C1: the Vector2 dot method agrees with the free function vec2_dot
for every element type with multiply and add, but the Vector3 free
function vec3_dot DISAGREES with the Vector3 dot method: at
a = b = Vector3(0, 0, 1) over the integers the method returns 1 while
vec3_dot returns 2, because the source adds the z components instead of
multiplying them. -/
theorem c1_vec3_dot_free_function_diverges :
    (∀ (T : Type) (iM : Mul T) (iA : Add T) (a b : Vector2 T),
      Vector2.dot a b = vec2_dot a b)
    ∧ Vector3.dot (T := ℤ) ⟨0, 0, 1⟩ ⟨0, 0, 1⟩ = 1
    ∧ vec3_dot (T := ℤ) ⟨0, 0, 1⟩ ⟨0, 0, 1⟩ = 2 := by
  refine ⟨fun T _ _ a b => rfl, by decide, by decide⟩

/-- C2: the validating constructor fails exactly when some supplied
component is NaN, and otherwise returns the same vector as raw
aggregate construction, for both arities. -/
theorem c2_validating_constructor (x y z : F32) :
    (Vector2.new x y = none ↔ (x.is_nan || y.is_nan) = true)
    ∧ ((x.is_nan || y.is_nan) = false → Vector2.new x y = some ⟨x, y⟩)
    ∧ (Vector3.new x y z = none ↔ (x.is_nan || y.is_nan || z.is_nan) = true)
    ∧ ((x.is_nan || y.is_nan || z.is_nan) = false →
        Vector3.new x y z = some ⟨x, y, z⟩) := by
  cases hx : F32.is_nan x <;> cases hy : F32.is_nan y <;>
    cases hz : F32.is_nan z <;>
    simp [Vector2.new, Vector3.new, F32.flt_is_nan, hx, hy, hz]

/-- C2 witness at concrete inputs: the constructor rejects a NaN
component and reproduces raw construction on non-NaN components. -/
theorem c2_validating_constructor_witness :
    Vector2.new (F32.fin 1) F32.nan = none
    ∧ Vector2.new (F32.fin 1) (F32.fin 2) = some ⟨F32.fin 1, F32.fin 2⟩ :=
  ⟨(c2_validating_constructor (F32.fin 1) F32.nan (F32.fin 0)).1.mpr (by decide),
   (c2_validating_constructor (F32.fin 1) (F32.fin 2) (F32.fin 0)).2.1 (by decide)⟩

/-- C3: indexing returns the components in declaration order, and every
index at or beyond the arity fails; no index wraps around. -/
theorem c3_index_order_and_bounds {T : Type} (v : Vector2 T) (w : Vector3 T)
    (i j : Nat) (hi : 2 ≤ i) (hj : 3 ≤ j) :
    v.index 0 = some v.x ∧ v.index 1 = some v.y ∧ v.index i = none
    ∧ w.index 0 = some w.x ∧ w.index 1 = some w.y ∧ w.index 2 = some w.z
    ∧ w.index j = none := by
  have hi0 : i ≠ 0 := by omega
  have hi1 : i ≠ 1 := by omega
  have hj0 : j ≠ 0 := by omega
  have hj1 : j ≠ 1 := by omega
  have hj2 : j ≠ 2 := by omega
  refine ⟨rfl, rfl, ?_, rfl, rfl, rfl, ?_⟩
  · simp [Vector2.index, hi0, hi1]
  · simp [Vector3.index, hj0, hj1, hj2]

/-- C3 witness at concrete inputs: in-order reads succeed and the first
out-of-range index of each arity fails. -/
theorem c3_index_order_and_bounds_witness :
    Vector2.index (T := ℤ) ⟨5, 7⟩ 0 = some 5
    ∧ Vector2.index (T := ℤ) ⟨5, 7⟩ 1 = some 7
    ∧ Vector2.index (T := ℤ) ⟨5, 7⟩ 2 = none
    ∧ Vector3.index (T := ℤ) ⟨5, 7, 9⟩ 0 = some 5
    ∧ Vector3.index (T := ℤ) ⟨5, 7, 9⟩ 1 = some 7
    ∧ Vector3.index (T := ℤ) ⟨5, 7, 9⟩ 2 = some 9
    ∧ Vector3.index (T := ℤ) ⟨5, 7, 9⟩ 3 = none :=
  c3_index_order_and_bounds ⟨5, 7⟩ ⟨5, 7, 9⟩ 2 3 (by decide) (by decide)

/-- C4: scalar division is multiplication by the reciprocal, where the
reciprocal is one divided by the scalar, for both arities and every
scalar of the f32 model, at the level of the exact representation. -/
theorem c4_div_eq_mul_recip (v : Vector2 F32) (w : Vector3 F32) (s : F32) :
    v.div s = v.mul (F32.fdiv (F32.fin 1) s)
    ∧ w.div s = w.mul (F32.fdiv (F32.fin 1) s) :=
  ⟨rfl, rfl⟩

/-- C5: the operations other than new and index are embedded as total
functions, mirroring the absence of a panic path in the source; in
particular division by the zero scalar returns a vector whose every
component is an infinity or NaN, it does not fail. -/
theorem c5_div_by_zero_yields_inf_or_nan (v : Vector2 F32) (w : Vector3 F32) :
    (v.div (F32.fin 0)).x.isInfOrNan = true
    ∧ (v.div (F32.fin 0)).y.isInfOrNan = true
    ∧ (w.div (F32.fin 0)).x.isInfOrNan = true
    ∧ (w.div (F32.fin 0)).y.isInfOrNan = true
    ∧ (w.div (F32.fin 0)).z.isInfOrNan = true := by
  have hr : (Flt.recip (F32.fin 0) : F32) = F32.inf := by decide
  refine ⟨?_, ?_, ?_, ?_, ?_⟩ <;>
    simp only [Vector2.div, Vector3.div, Vector2.mul, Vector3.mul, hr] <;>
    exact F32.mul_inf_isInfOrNan _

/-- C6: length_squared coincides with the dot product of a vector with
itself, for both arities and every element type with multiply and add. -/
theorem c6_length_squared_eq_dot {T : Type} [Mul T] [Add T]
    (v : Vector2 T) (w : Vector3 T) :
    v.length_squared = v.dot v ∧ w.length_squared = w.dot w :=
  ⟨rfl, rfl⟩

end RustPbrt

namespace RustPbrt

/-- C7 counterexample: under the derived PartialEq (IEEE equality on
f32), commutativity fails as a universal statement, because a NaN
component of the sum compares unequal to itself; it fails both for a
NaN operand and for operands whose opposite infinities cancel to NaN. -/
theorem c7_add_comm_counterexample :
    Vector2.beq
      (Vector2.add (⟨F32.nan, F32.fin 0⟩ : Vector2 F32) ⟨F32.fin 0, F32.fin 0⟩)
      (Vector2.add (⟨F32.fin 0, F32.fin 0⟩ : Vector2 F32) ⟨F32.nan, F32.fin 0⟩) = false
    ∧ Vector2.beq
      (Vector2.add (⟨F32.inf, F32.fin 0⟩ : Vector2 F32) ⟨F32.neginf, F32.fin 0⟩)
      (Vector2.add (⟨F32.neginf, F32.fin 0⟩ : Vector2 F32) ⟨F32.inf, F32.fin 0⟩) = false := by
  decide

/-- C7 amended: vector addition is commutative under Rust equality for
integer element types unrestricted, and for f32 vectors whenever every
component of both operands is finite. -/
theorem c7_add_comm_finite (a b : Vector2 F32) (c d : Vector3 F32)
    (hab : (a.allFinite && b.allFinite) = true)
    (hcd : (c.allFinite && d.allFinite) = true) :
    (∀ (p q : Vector2 ℤ), p.add q = q.add p)
    ∧ (∀ (p q : Vector3 ℤ), p.add q = q.add p)
    ∧ Vector2.beq (a.add b) (b.add a) = true
    ∧ Vector3.beq (c.add d) (d.add c) = true := by
  obtain ⟨ax, ay⟩ := a
  obtain ⟨bx, b2⟩ := b
  obtain ⟨cx, cy, cz⟩ := c
  obtain ⟨dx, dy, dz⟩ := d
  simp only [Vector2.allFinite, Vector3.allFinite, Bool.and_eq_true] at hab hcd
  obtain ⟨⟨hax, hay⟩, hbx, hb2⟩ := hab
  obtain ⟨⟨⟨hcx, hcy⟩, hcz⟩, ⟨hdx, hdy⟩, hdz⟩ := hcd
  obtain ⟨q1, rfl⟩ := F32.exists_fin_of_isFinite _ hax
  obtain ⟨q2, rfl⟩ := F32.exists_fin_of_isFinite _ hay
  obtain ⟨q3, rfl⟩ := F32.exists_fin_of_isFinite _ hbx
  obtain ⟨q4, rfl⟩ := F32.exists_fin_of_isFinite _ hb2
  obtain ⟨r1, rfl⟩ := F32.exists_fin_of_isFinite _ hcx
  obtain ⟨r2, rfl⟩ := F32.exists_fin_of_isFinite _ hcy
  obtain ⟨r3, rfl⟩ := F32.exists_fin_of_isFinite _ hcz
  obtain ⟨r4, rfl⟩ := F32.exists_fin_of_isFinite _ hdx
  obtain ⟨r5, rfl⟩ := F32.exists_fin_of_isFinite _ hdy
  obtain ⟨r6, rfl⟩ := F32.exists_fin_of_isFinite _ hdz
  refine ⟨fun p q => ?_, fun p q => ?_, ?_, ?_⟩
  · simp [Vector2.add, Int.add_comm]
  · simp [Vector3.add, Int.add_comm]
  · simp [Vector2.add, Vector2.beq, F32.beq_eq, F32.add_def, F32.add,
      F32.beq, add_comm]
  · simp [Vector3.add, Vector3.beq, F32.beq_eq, F32.add_def, F32.add,
      F32.beq, add_comm]

/-- C7 witness at concrete finite inputs. -/
theorem c7_add_comm_finite_witness :
    ((Vector2.allFinite ⟨F32.fin 1, F32.fin 2⟩
        && Vector2.allFinite ⟨F32.fin 3, F32.fin (-4)⟩) = true)
    ∧ Vector2.beq
        (Vector2.add (⟨F32.fin 1, F32.fin 2⟩ : Vector2 F32) ⟨F32.fin 3, F32.fin (-4)⟩)
        (Vector2.add (⟨F32.fin 3, F32.fin (-4)⟩ : Vector2 F32) ⟨F32.fin 1, F32.fin 2⟩) = true :=
  ⟨by decide,
   (c7_add_comm_finite ⟨F32.fin 1, F32.fin 2⟩ ⟨F32.fin 3, F32.fin (-4)⟩
      ⟨F32.fin 0, F32.fin 0, F32.fin 0⟩ ⟨F32.fin 0, F32.fin 0, F32.fin 0⟩
      (by decide) (by decide)).2.2.1⟩

/-- C8 counterexample: under the derived PartialEq, the sum of a vector
and its negation is not the zero vector when a component is NaN (the
sum has a NaN component) or infinite (opposite infinities add to NaN). -/
theorem c8_additive_inverse_counterexample :
    Vector2.beq
      (Vector2.add (⟨F32.nan, F32.fin 0⟩ : Vector2 F32)
        (Vector2.neg ⟨F32.nan, F32.fin 0⟩))
      ⟨F32.fin 0, F32.fin 0⟩ = false
    ∧ Vector2.beq
      (Vector2.add (⟨F32.inf, F32.fin 0⟩ : Vector2 F32)
        (Vector2.neg ⟨F32.inf, F32.fin 0⟩))
      ⟨F32.fin 0, F32.fin 0⟩ = false := by
  decide

/-- C8 amended: for every f32 vector all of whose components are
finite, adding its negation yields the all-zero vector under Rust
equality, for both arities. -/
theorem c8_additive_inverse_finite (a : Vector2 F32) (b : Vector3 F32)
    (ha : a.allFinite = true) (hb : b.allFinite = true) :
    Vector2.beq (a.add a.neg) ⟨F32.fin 0, F32.fin 0⟩ = true
    ∧ Vector3.beq (b.add b.neg) ⟨F32.fin 0, F32.fin 0, F32.fin 0⟩ = true := by
  obtain ⟨ax, ay⟩ := a
  obtain ⟨bx, b2, b3⟩ := b
  simp only [Vector2.allFinite, Vector3.allFinite, Bool.and_eq_true] at ha hb
  obtain ⟨hax, hay⟩ := ha
  obtain ⟨⟨hbx, hb2⟩, hb3⟩ := hb
  obtain ⟨q1, rfl⟩ := F32.exists_fin_of_isFinite _ hax
  obtain ⟨q2, rfl⟩ := F32.exists_fin_of_isFinite _ hay
  obtain ⟨r1, rfl⟩ := F32.exists_fin_of_isFinite _ hbx
  obtain ⟨r2, rfl⟩ := F32.exists_fin_of_isFinite _ hb2
  obtain ⟨r3, rfl⟩ := F32.exists_fin_of_isFinite _ hb3
  constructor
  · simp [Vector2.add, Vector2.neg, Vector2.beq, F32.beq_eq, F32.add_def,
      F32.neg_def, F32.add, F32.neg, F32.beq, add_neg_cancel]
  · simp [Vector3.add, Vector3.neg, Vector3.beq, F32.beq_eq, F32.add_def,
      F32.neg_def, F32.add, F32.neg, F32.beq, add_neg_cancel]

/-- C8 witness at a concrete finite input. -/
theorem c8_additive_inverse_finite_witness :
    (Vector2.allFinite ⟨F32.fin 2, F32.fin (-3)⟩ = true)
    ∧ Vector2.beq
        (Vector2.add (⟨F32.fin 2, F32.fin (-3)⟩ : Vector2 F32)
          (Vector2.neg ⟨F32.fin 2, F32.fin (-3)⟩))
        ⟨F32.fin 0, F32.fin 0⟩ = true :=
  ⟨by decide,
   (c8_additive_inverse_finite ⟨F32.fin 2, F32.fin (-3)⟩
      ⟨F32.fin 0, F32.fin 0, F32.fin 0⟩ (by decide) (by decide)).1⟩

/-- C9: add_assign leaves the left vector equal to the value of the
non-assigning addition of the original operands, for both arities and
every element type, and the concrete scenario of the spec holds:
Vector2(2, 3) + Vector2(1, -1) is Vector2(3, 2), and add_assign of the
same operands produces the identical vector. -/
theorem c9_add_assign_agrees {T : Type} [Add T] (a b : Vector2 T)
    (c d : Vector3 T) :
    a.add_assign b = a.add b
    ∧ c.add_assign d = c.add d
    ∧ Vector2.add (⟨F32.fin 2, F32.fin 3⟩ : Vector2 F32) ⟨F32.fin 1, F32.fin (-1)⟩
        = ⟨F32.fin 3, F32.fin 2⟩
    ∧ Vector2.add_assign (⟨F32.fin 2, F32.fin 3⟩ : Vector2 F32) ⟨F32.fin 1, F32.fin (-1)⟩
        = ⟨F32.fin 3, F32.fin 2⟩ := by
  refine ⟨rfl, rfl, ?_, ?_⟩ <;>
    · simp only [Vector2.add, Vector2.add_assign, F32.add_def, F32.add,
        Vector2.mk.injEq, F32.fin.injEq]
      norm_num

/-- C10: on NaN-free f32 vectors of either arity, double negation
returns a vector equal to the original under Rust equality. -/
theorem c10_neg_involution (v : Vector2 F32) (w : Vector3 F32)
    (hv : v.has_nans = false) (hw : w.has_nans = false) :
    Vector2.beq (v.neg.neg) v = true ∧ Vector3.beq (w.neg.neg) w = true := by
  simp only [Vector2.has_nans, Vector3.has_nans, F32.flt_is_nan,
    Bool.or_eq_false_iff] at hv hw
  obtain ⟨hvx, hvy⟩ := hv
  obtain ⟨⟨hwx, hwy⟩, hwz⟩ := hw
  constructor
  · simp [Vector2.neg, Vector2.beq, F32.beq_eq, F32.neg_neg_eq,
      F32.beq_self_of_not_nan _ hvx, F32.beq_self_of_not_nan _ hvy]
  · simp [Vector3.neg, Vector3.beq, F32.beq_eq, F32.neg_neg_eq,
      F32.beq_self_of_not_nan _ hwx, F32.beq_self_of_not_nan _ hwy,
      F32.beq_self_of_not_nan _ hwz]

/-- C10 witness at a concrete NaN-free input with an infinite and
finite components. -/
theorem c10_neg_involution_witness :
    (Vector2.has_nans (⟨F32.fin 1, F32.inf⟩ : Vector2 F32) = false)
    ∧ Vector2.beq
        (Vector2.neg (Vector2.neg (⟨F32.fin 1, F32.inf⟩ : Vector2 F32)))
        ⟨F32.fin 1, F32.inf⟩ = true :=
  ⟨by decide,
   (c10_neg_involution ⟨F32.fin 1, F32.inf⟩ ⟨F32.fin 0, F32.neginf, F32.fin 5⟩
      (by decide) (by decide)).1⟩

end RustPbrt
